import Mathlib

/-!
Verification development for the Stream Deck Home Assistant integration
(`homeassistant/components/streamdeck`).  The Python source is shallowly
embedded: JSON values are an inductive type, Python exceptions are an
error type threaded through `Except` or result pairs, the mutable
class-level attributes of `SDInfo` are explicit state, and the Home
Assistant host (state store, service bus, config entries) is passed in as
explicit arguments.
-/

/-- Python exception kinds relevant to the embedded code paths.
`typeError` also stands for the other uncaught exception kinds
(`AttributeError`, `ValueError`) raised on wrong-shaped values; the
source only ever catches `KeyError` and the JSON decode error, so the
distinction between the uncaught kinds is not observable. -/
inductive PyError where
  | keyError
  | typeError
  | indexError
deriving DecidableEq, Repr

/-- A decoded JSON value, as produced by Python `json.loads`. -/
inductive Json where
  | null
  | bool (b : Bool)
  | num (n : Int)
  | str (s : String)
  | arr (elems : List Json)
  | obj (fields : List (String × Json))

/-- Python subscripting `obj[key]` with a string key: dicts look the key
up (`KeyError` when absent); every non-dict value raises `TypeError`
(ints, strings and lists are not subscriptable by a string, `None` is not
subscriptable). -/
def Json.getKey : Json → String → Except PyError Json
  | .obj fields, k =>
    match fields.lookup k with
    | some v => .ok v
    | none => .error .keyError
  | _, _ => .error .typeError

--
--  Wire types (streamdeck.py).  Field values are stored without type
--  checks, exactly as the Python constructors assign them.
--

/-- `SDApplication.__init__`: reads five required keys, storing the raw
values. A missing key raises `KeyError`; a non-dict argument raises
`TypeError`. -/
structure SDApplication where
  font : Json
  language : Json
  platform : Json
  platformVersion : Json
  version : Json

def SDApplication.decode (obj : Json) : Except PyError SDApplication := do
  let f ← obj.getKey "font"
  let l ← obj.getKey "language"
  let p ← obj.getKey "platform"
  let pv ← obj.getKey "platformVersion"
  let v ← obj.getKey "version"
  .ok ⟨f, l, p, pv, v⟩

/-- `SDSize.__init__`. -/
structure SDSize where
  columns : Json
  rows : Json

def SDSize.decode (obj : Json) : Except PyError SDSize := do
  let c ← obj.getKey "columns"
  let r ← obj.getKey "rows"
  .ok ⟨c, r⟩

/-- `SDDevice.__init__`. -/
structure SDDevice where
  id : Json
  name : Json
  type : Json
  size : SDSize

def SDDevice.decode (obj : Json) : Except PyError SDDevice := do
  let i ← obj.getKey "id"
  let n ← obj.getKey "name"
  let t ← obj.getKey "type"
  let sz ← obj.getKey "size"
  let s ← SDSize.decode sz
  .ok ⟨i, n, t, s⟩

/-- `SDButtonPosition.__init__`. -/
structure SDButtonPosition where
  x_pos : Json
  y_pos : Json

def SDButtonPosition.decode (obj : Json) : Except PyError SDButtonPosition := do
  let x ← obj.getKey "x"
  let y ← obj.getKey "y"
  .ok ⟨x, y⟩

/-- `SDButton.__init__` (source order: uuid, device, svg, position). -/
structure SDButton where
  uuid : Json
  device : Json
  svg : Json
  position : SDButtonPosition

def SDButton.decode (obj : Json) : Except PyError SDButton := do
  let u ← obj.getKey "uuid"
  let d ← obj.getKey "device"
  let s ← obj.getKey "svg"
  let p ← obj.getKey "position"
  let pos ← SDButtonPosition.decode p
  .ok ⟨u, d, s, pos⟩

/-- The class-level mutable attributes of `SDInfo`: the source declares
`devices: list[SDDevice] = []` and `buttons: dict[str, SDButton] = {}`
at class scope, so every `SDInfo` instance aliases this one shared list
and dict, and `__init__` appends into them. -/
structure SDClassState where
  devices : List SDDevice
  buttons : List (String × SDButton)

/-- The shared class state at Python process start. -/
def SDClassState.empty : SDClassState := ⟨[], []⟩

/-- Python iteration `for device in obj["devices"]`: lists yield their
elements; dicts yield their keys (strings); strings yield their
one-character substrings; ints, bools and `None` raise `TypeError`. -/
def Json.iterElems : Json → Except PyError (List Json)
  | .arr xs => .ok xs
  | .obj fields => .ok (fields.map fun p => Json.str p.1)
  | .str s => .ok (s.toList.map fun c => Json.str (String.mk [c]))
  | _ => .error .typeError

/-- The `for device in obj["devices"]: self.devices.append(...)` loop of
`SDInfo.__init__`.  Appends go to the shared class-level list one at a
time, so a failure partway through keeps the earlier appends. -/
def SDInfo.devLoop (cls : SDClassState) : List Json → SDClassState × Option PyError
  | [] => (cls, none)
  | d :: ds =>
    match SDDevice.decode d with
    | .error e => (cls, some e)
    | .ok dev => SDInfo.devLoop { cls with devices := cls.devices ++ [dev] } ds

/-- One `dict.update({key: value})` step on the shared `buttons` dict:
an existing key has its value replaced in place, a new key is appended. -/
def SDInfo.buttonsUpdate (btns : List (String × SDButton)) (k : String) (v : SDButton) :
    List (String × SDButton) :=
  if k ∈ btns.map Prod.fst then
    btns.map fun p => if p.1 = k then (p.1, v) else p
  else
    btns ++ [(k, v)]

/-- The `for _id in obj["buttons"]: self.buttons.update(...)` loop of
`SDInfo.__init__`: iterates the keys of the buttons dict and decodes
each value.  A non-dict, non-empty buttons value raises `TypeError`
(iterating a list or string and subscripting back with its elements
raises `TypeError` on the string/JSON indices involved; empty values
iterate zero times). -/
def SDInfo.btnLoop (cls : SDClassState) : List (String × Json) → SDClassState × Option PyError
  | [] => (cls, none)
  | (k, v) :: rest =>
    match SDButton.decode v with
    | .error e => (cls, some e)
    | .ok b =>
      SDInfo.btnLoop { cls with buttons := SDInfo.buttonsUpdate cls.buttons k b } rest

/-- `SDInfo.__init__(self, obj)`: `dict.__init__(self, obj)` raises on a
non-dict argument; then `application` is decoded, then the devices loop,
then the buttons loop, all mutating the shared class state. -/
def SDInfo.construct (cls : SDClassState) (obj : Json) : SDClassState × Option PyError :=
  match obj with
  | .obj _ =>
    match obj.getKey "application" with
    | .error e => (cls, some e)
    | .ok app =>
      match SDApplication.decode app with
      | .error e => (cls, some e)
      | .ok _ =>
        match obj.getKey "devices" with
        | .error e => (cls, some e)
        | .ok dv =>
          match dv.iterElems with
          | .error e => (cls, some e)
          | .ok elems =>
            match SDInfo.devLoop cls elems with
            | (cls1, some e) => (cls1, some e)
            | (cls1, none) =>
              match obj.getKey "buttons" with
              | .error e => (cls1, some e)
              | .ok bt =>
                match bt with
                | .obj fields => SDInfo.btnLoop cls1 fields
                | .arr xs => if xs.isEmpty then (cls1, none) else (cls1, some .typeError)
                | .str s => if s = "" then (cls1, none) else (cls1, some .typeError)
                | _ => (cls1, some .typeError)
  | _ => (cls, some .typeError)

--
--  Device client (streamdeck.py StreamDeck.get_request / get_info).
--

/-- Outcome of the blocking `requests.get` call: either the request
raised a `requests.RequestException`, or a response with a status code
and a body (`none` when the body is not valid JSON, making `res.json()`
raise `JSONDecodeError`). -/
inductive HttpResult where
  | exn
  | resp (status : Nat) (body : Option Json)

/-- The `timeout=5` argument passed to `requests.get` in
`StreamDeck.get_request`. -/
def requestTimeoutSeconds : Nat := 5

/-- `StreamDeck.get_request`: returns `False` (here `none`) on a raised
`RequestException` or a non-200 status, otherwise the response. -/
def get_request : HttpResult → Option (Nat × Option Json)
  | .exn => none
  | .resp status body => if status ≠ 200 then none else some (status, body)

/-- Result of `StreamDeck.get_info`. -/
inductive InfoResult where
  | failure
  | raised (e : PyError)
  | ok (cls : SDClassState)

/-- `StreamDeck.get_info`: `False` when `get_request` failed or the
status is re-checked non-200, `False` when `res.json()` raises, `False`
when `SDInfo(rjson)` raises `KeyError` (the only caught constructor
exception); any other constructor exception propagates.  Threads the
shared `SDInfo` class state. -/
def get_info (cls : SDClassState) (r : HttpResult) : SDClassState × InfoResult :=
  match get_request r with
  | none => (cls, .failure)
  | some (status, body) =>
    if status ≠ 200 then (cls, .failure)
    else
      match body with
      | none => (cls, .failure)
      | some j =>
        match SDInfo.construct cls j with
        | (cls2, some .keyError) => (cls2, .failure)
        | (cls2, some e) => (cls2, .raised e)
        | (cls2, none) => (cls2, .ok cls2)

--
--  Websocket message handling (streamdeck.py StreamDeck.on_message /
--  websocket_loop).
--

/-- Shape of the `args` payload of a decoded websocket message, as
discriminated by `SDWebsocketMessage.__init__` (`{}` test, `isinstance
str` test, otherwise an `SDInfo`). -/
inductive SDArgsKind where
  | empty
  | text (s : String)
  | infoArgs
deriving DecidableEq, Repr

/-- Control-flow outcome of one `StreamDeck.on_message` call.
`droppedNotJson` is the caught `json.JSONDecodeError`, `droppedBadShape`
the caught `KeyError` from `SDWebsocketMessage`; `raised` is an uncaught
exception escaping `on_message`; `dispatched` means the frame decoded
and was fired on the bus and matched against the event table (the
further effects of the dispatch handlers act on the host and are not
needed by the claims below). -/
inductive MsgOutcome where
  | droppedNotJson
  | droppedBadShape
  | raised (e : PyError)
  | dispatched (event : Json) (args : SDArgsKind)

/-- Classify the result of `SDInfo(obj["args"])` inside
`SDWebsocketMessage.__init__` as seen by `on_message`: a raised
`KeyError` is caught (frame dropped), any other exception escapes, and
success dispatches the message with its info payload. -/
def classifyArgsDecode (ev : Json) : SDClassState × Option PyError → SDClassState × MsgOutcome
  | (cls2, some .keyError) => (cls2, .droppedBadShape)
  | (cls2, some e) => (cls2, .raised e)
  | (cls2, none) => (cls2, .dispatched ev .infoArgs)

/-- `StreamDeck.on_message` applied to the result of `json.loads` on the
received frame (`none` when the frame is not valid JSON).
`SDWebsocketMessage.__init__` reads `obj["event"]` and `obj["args"]`
(only `KeyError` is caught by the caller; a non-dict message raises
`TypeError`), and a non-`{}` non-string `args` is passed to `SDInfo`,
mutating the shared class state. -/
def on_message (cls : SDClassState) (frame : Option Json) : SDClassState × MsgOutcome :=
  match frame with
  | none => (cls, .droppedNotJson)
  | some j =>
    match j.getKey "event" with
    | .error .keyError => (cls, .droppedBadShape)
    | .error e => (cls, .raised e)
    | .ok ev =>
      match j.getKey "args" with
      | .error .keyError => (cls, .droppedBadShape)
      | .error e => (cls, .raised e)
      | .ok (.obj []) => (cls, .dispatched ev .empty)
      | .ok (.str s) => (cls, .dispatched ev (.text s))
      | .ok a => classifyArgsDecode ev (SDInfo.construct cls a)

/-- The receive loop body of `StreamDeck.websocket_loop`, applied to a
finite list of received frames: each frame is handed to `on_message`;
an exception escaping `on_message` propagates (the loop only catches
`WebSocketException`), terminating the loop with the remaining frames
unprocessed.  Returns the outcomes of the processed frames and whether
the loop is still alive afterwards. -/
def websocket_loop_frames (cls : SDClassState) :
    List (Option Json) → List MsgOutcome × Bool
  | [] => ([], true)
  | f :: fs =>
    match on_message cls f with
    | (_, .raised e) => ([.raised e], false)
    | (cls2, o) =>
      let rest := websocket_loop_frames cls2 fs
      (o :: rest.1, rest.2)

/-- A frame whose decode fails non-fatally (malformed JSON or a caught
`KeyError`): `on_message` logs and returns without dispatching. -/
def isDroppedOutcome : MsgOutcome → Bool
  | .droppedNotJson => true
  | .droppedBadShape => true
  | _ => false

--
--  Button binding reconciliation (streamdeck.py StreamDeck.add_entities).
--  The button dict is a Python dict from button uuid to entity id,
--  modeled as an association list in insertion order.
--

/-- One pass of the insertion loop in `StreamDeck.add_entities`:
`for _, button in info.buttons.items(): if button.uuid not in
self._button_dict.keys(): self._button_dict[button.uuid] = ""`.
Assignment to a fresh dict key appends it in insertion order. -/
def reconcileOnce (store : List (String × String)) (uuids : List String) :
    List (String × String) :=
  uuids.foldl (fun d u => if u ∈ d.map Prod.fst then d else d ++ [(u, "")]) store

/-- The transformation `add_entities` applies to the stored button dict
read from the config entry, given which add-entities callbacks were
passed in this call: the insertion loop runs once inside the
binary-sensor block and once inside the select block (each guarded by
its callback being freshly provided), and the result is written back to
the config entry. -/
def add_entities_buttons (newBinary newSelect : Bool) (uuids : List String)
    (store : List (String × String)) : List (String × String) :=
  let d1 := if newBinary then reconcileOnce store uuids else store
  if newSelect then reconcileOnce d1 uuids else d1

--
--  Constants (const.py).
--

def SELECT_OPTION_UP : String := ">>UP<<"

def SELECT_OPTION_DOWN : String := ">>DOWN<<"

/-- Modelled from the spec: the "clear binding" sentinel value.
`__init__.py` imports `SELECT_OPTION_DELETE` from `.const`, but the
`const.py` present in the sources does not define it; the spec describes
it as a reserved marker distinct from real entity identifiers and from
the up/down sentinels, so it is modelled here as such a string. -/
def SELECT_OPTION_DELETE : String := ">>DELETE<<"

def TOGGLEABLE_PLATFORMS : List String :=
  ["cover", "fan", "humidifier", "input_boolean", "light", "media_player",
   "remote", "siren", "switch", "vacuum"]

def UP_DOWN_PLATFORMS : List String := ["light"]

def UP_DOWN_STEPS : Int := 15

def MDI_DEFAULT : String := "mdi:help"

def EVENT_SHORT_PRESS : String := "singleTap"

def EVENT_LONG_PRESS : String := "longPress"

--
--  Home Assistant host model, as consumed by __init__.py.
--

/-- An attribute value in a Home Assistant state's attribute dict.  Only
strings and ints occur in the embedded code paths (`brightness` is
checked with `isinstance(int)`; `icon` and `unit_of_measurement` are
strings when present). -/
inductive Attr where
  | aStr (s : String)
  | aInt (n : Int)
deriving DecidableEq, Repr

/-- A Home Assistant `State` as read through `hass.states.get`:
`entity_id`, the state value string, the friendly display name and the
attribute dict. -/
structure HAState where
  entity_id : String
  state : String
  name : String
  attributes : List (String × Attr)
deriving DecidableEq, Repr

/-- `State.domain`: the part of the entity id before the first dot
(`entity_id.split(".")[0]`, the whole id when there is no dot). -/
def HAState.domain (st : HAState) : String :=
  String.mk (st.entity_id.toList.takeWhile fun c => c != Char.ofNat 46)

/-- A call placed on the host service bus via `hass.services.async_call`:
domain, service name, target entity, and the optional
`{"brightness": b}` service data used by the up/down handlers. -/
structure ServiceCall where
  domain : String
  service : String
  entity : String
  brightness : Option Int
deriving DecidableEq, Repr

/-- `get_button_entity` (__init__.py): reads
`entry.data["buttons"][uuid]["entity_id"]` with `isinstance` shape
checks at each level, returning `None` on any mismatch. -/
def get_button_entity (entryData : List (String × Json)) (uuid : String) :
    Option String :=
  match entryData.lookup "buttons" with
  | some (.obj btns) =>
    match btns.lookup uuid with
    | some (.obj cfg) =>
      match cfg.lookup "entity_id" with
      | some (.str e) => some e
      | _ => none
    | _ => none
  | _ => none

/-- `option_up` (__init__.py): only the light domain is handled; reads
the `brightness` attribute, requires it to be an `int`, and issues
`light.turn_on` with `brightness + UP_DOWN_STEPS` — there is no
clamping in the source. -/
def option_up (st : HAState) : Option ServiceCall :=
  if st.domain ∈ UP_DOWN_PLATFORMS then
    if st.domain = "light" then
      match st.attributes.lookup "brightness" with
      | some (.aInt b) =>
        some ⟨st.domain, "turn_on", st.entity_id, some (b + UP_DOWN_STEPS)⟩
      | _ => none
    else none
  else none

/-- `option_down` (__init__.py): as `option_up` but with
`brightness - UP_DOWN_STEPS`, again without clamping. -/
def option_down (st : HAState) : Option ServiceCall :=
  if st.domain ∈ UP_DOWN_PLATFORMS then
    if st.domain = "light" then
      match st.attributes.lookup "brightness" with
      | some (.aInt b) =>
        some ⟨st.domain, "turn_on", st.entity_id, some (b - UP_DOWN_STEPS)⟩
      | _ => none
    else none
  else none

/-- Result of dispatching one button event: the service call issued (if
any) and the value of the Last-Pressed Pointer
(`hass.data[DOMAIN][f"entry_current"]`) afterwards. -/
structure ButtonDispatch where
  call : Option ServiceCall
  pointer : Option String
deriving DecidableEq, Repr

/-- `on_button_press` (__init__.py): resolves the binding; for the
up/down sentinels the target is redirected to the Last-Pressed Pointer;
returns early (pointer untouched) when the binding, the redirected
target or its state is missing; otherwise issues a toggle (or the
up/down adjustment) when the target's domain is toggleable, and in all
fall-through cases overwrites the pointer with the target entity. -/
def on_button_press (entryData : List (String × Json)) (pointer : Option String)
    (states : String → Option HAState) (uuid : String) : ButtonDispatch :=
  match get_button_entity entryData uuid with
  | none => ⟨none, pointer⟩
  | some entity =>
    let base? : Option String :=
      if entity = SELECT_OPTION_UP ∨ entity = SELECT_OPTION_DOWN then pointer
      else some entity
    match base? with
    | none => ⟨none, pointer⟩
    | some base =>
      match states base with
      | none => ⟨none, pointer⟩
      | some st =>
        let call : Option ServiceCall :=
          if st.domain ∈ TOGGLEABLE_PLATFORMS then
            if entity = SELECT_OPTION_UP then option_up st
            else if entity = SELECT_OPTION_DOWN then option_down st
            else some ⟨st.domain, "toggle", base, none⟩
          else none
        ⟨call, some base⟩

/-- `on_ws_message` (__init__.py): always re-fires the frame on the host
event bus (not modeled in the result), then dispatches: a short-press
with a string argument goes to `on_button_press`; a long-press with a
string argument sets the Last-Pressed Pointer to the bound entity
without any service call; everything else is ignored. -/
def on_ws_message (entryData : List (String × Json)) (pointer : Option String)
    (states : String → Option HAState) (event : String) (args : SDArgsKind) :
    ButtonDispatch :=
  if event = EVENT_SHORT_PRESS then
    match args with
    | .text uuid => on_button_press entryData pointer states uuid
    | _ => ⟨none, pointer⟩
  else if event = EVENT_LONG_PRESS then
    match args with
    | .text uuid =>
      match get_button_entity entryData uuid with
      | none => ⟨none, pointer⟩
      | some e => ⟨none, some e⟩
    | _ => ⟨none, pointer⟩
  else ⟨none, pointer⟩

--
--  Icon rendering (__init__.py update_button_icon).
--

/-- Python `str.split(sep)` for a one-character separator: splits on
every occurrence and keeps empty segments, so the result always has
(number of separators) + 1 segments. -/
def pySplit (sep : Char) : List Char → List (List Char)
  | [] => [[]]
  | c :: cs =>
    match pySplit sep cs with
    | h :: t => if c = sep then [] :: h :: t else (c :: h) :: t
    | [] => [[]]

/-- Modelled from the spec: the external icon-lookup collaborator
`MDI.get_icon(identifier, color)` — "given an icon identifier string and
a color, produce an embeddable vector glyph fragment".  The `mdiicons`
package is not part of this repository; the glyph is modelled as a
deterministic fragment embedding the identifier and the color. -/
def MDI_get_icon (identifier color : String) : String :=
  "<path class=\"" ++ identifier ++ "\" fill=\"" ++ color ++ "\" d=\"\"/>"

/-- The placeholder SVG of the unbound-button branch of
`update_button_icon`: the f-string interpolates `uuid.split("-")[0]`,
`[1]` and `[2]`, raising `IndexError` when the split has fewer than
three segments. -/
def placeholderSvg (uuid : String) : Except PyError String :=
  let parts := pySplit (Char.ofNat 45) uuid.toList
  if h : parts.length ≤ 2 then .error .indexError
  else
    .ok ("<svg xmlns=\"http://www.w3.org/2000/svg\" viewBox=\"0 0 72 72\">\n            <rect width=\"72\" height=\"72\" fill=\"#a00\" />\n            <text text-anchor=\"middle\" x=\"35\" y=\"20\" fill=\"#fff\" font-size=\"13\">"
      ++ String.mk (parts.get ⟨0, by omega⟩)
      ++ "</text>\n            <text text-anchor=\"middle\" x=\"35\" y=\"40\" fill=\"#fff\" font-size=\"13\">"
      ++ String.mk (parts.get ⟨1, by omega⟩)
      ++ "</text>\n            <text text-anchor=\"middle\" x=\"35\" y=\"60\" fill=\"#fff\" font-size=\"13\">"
      ++ String.mk (parts.get ⟨2, by omega⟩)
      ++ "</text>\n            </svg>")

/-- The fixed SVG pushed for the up sentinel. -/
def upSvg : String :=
  "<svg xmlns=\"http://www.w3.org/2000/svg\" viewBox=\"0 0 72 72\">\n            <rect width=\"72\" height=\"72\" fill=\"#000\" />\n            <g transform=\"translate(16, 12) scale(0.5)\">"
    ++ MDI_get_icon "plus-box" "#fff"
    ++ "</g>\n            </svg>"

/-- The fixed SVG pushed for the down sentinel. -/
def downSvg : String :=
  "<svg xmlns=\"http://www.w3.org/2000/svg\" viewBox=\"0 0 72 72\">\n            <rect width=\"72\" height=\"72\" fill=\"#000\" />\n            <g transform=\"translate(16, 12) scale(0.5)\">"
    ++ MDI_get_icon "minus-box" "#fff"
    ++ "</g>\n            </svg>"

/-- The on/off color computed in the entity branch of
`update_button_icon`: green for state "on", red for "off", black
otherwise.  It is used to colorize the MDI glyph only. -/
def iconColorOf (stateValue : String) : String :=
  if stateValue = "on" then "#0e0"
  else if stateValue = "off" then "#e00"
  else "#000"

/-- `state.attributes.get(ATTR_UNIT_OF_MEASUREMENT, "")` as interpolated
into the f-string (an int renders via `str`). -/
def unitStr (attrs : List (String × Attr)) : String :=
  match attrs.lookup "unit_of_measurement" with
  | none => ""
  | some (.aStr s) => s
  | some (.aInt n) => toString n

/-- `mdi_string.split(":", 1)[1]` applied under the
`mdi_string.startswith("mdi:")` guard: everything after the first colon,
i.e. the string without its "mdi:" tag. -/
def stripMdiTag (s : String) : String :=
  if List.isPrefixOf "mdi:".toList s.toList then String.mk (s.toList.drop 4) else s

/-- The interpolation slots of the composite-entity SVG f-string of
`update_button_icon`: glyph color, state text, unit text, friendly-name
text, and the resolved MDI glyph.  The background rect fill is the
literal `#000` in the f-string itself (see `compositeRender`). -/
structure CompositeParts where
  iconColor : String
  stateText : String
  unitText : String
  nameText : String
  mdi : String
deriving DecidableEq, Repr

/-- The composite-entity SVG f-string of `update_button_icon`, with its
hardcoded `<rect ... fill="#000" />` background. -/
def compositeRender (p : CompositeParts) : String :=
  "<svg xmlns=\"http://www.w3.org/2000/svg\" viewBox=\"0 0 72 72\">\n        <rect width=\"72\" height=\"72\" fill=\"#000\" />\n        <text text-anchor=\"middle\" x=\"35\" y=\"15\" fill=\"#fff\" font-size=\"12\">"
    ++ p.stateText ++ p.unitText
    ++ "</text>\n        <text text-anchor=\"middle\" x=\"35\" y=\"65\" fill=\"#fff\" font-size=\"12\">"
    ++ p.nameText
    ++ "</text>\n        <g transform=\"translate(16, 12) scale(0.5)\">"
    ++ p.mdi
    ++ "</g>\n        </svg>"

/-- The `icon` attribute as used by `update_button_icon`: the string
value when present, the default `mdi:help` when absent. -/
def iconIdOf (attrs : List (String × Attr)) : String :=
  match attrs.lookup "icon" with
  | some (.aStr s) => s
  | _ => MDI_DEFAULT

/-- The entity branch of `update_button_icon`: computes the on/off
color, resolves the icon attribute (default `mdi:help` when absent; a
non-string value raises on `.startswith`, modeled as `typeError`),
strips the `mdi:` tag, and fills the f-string slots. -/
def compositeParts (st : HAState) : Except PyError CompositeParts :=
  let color := iconColorOf st.state
  match st.attributes.lookup "icon" with
  | some (.aInt _) => .error .typeError
  | _ =>
    .ok ⟨color, st.state, unitStr st.attributes, st.name,
         MDI_get_icon (stripMdiTag (iconIdOf st.attributes)) color⟩

/-- Observable outcome of `update_button_icon`: an SVG pushed to the
device via `api.update_icon`, a silent skip (entity state unavailable),
or an uncaught exception. -/
inductive IconAction where
  | push (svg : String)
  | skip
  | err (e : PyError)
deriving DecidableEq, Repr

/-- `update_button_icon` (__init__.py): an absent, empty or
clear-sentinel binding pushes the placeholder built from the uuid alone;
the up/down sentinels push their fixed glyphs; otherwise the entity
state is looked up — `None` skips, and an available state pushes the
composite SVG. -/
def update_button_icon (entryData : List (String × Json))
    (states : String → Option HAState) (uuid : String) : IconAction :=
  let entity? := get_button_entity entryData uuid
  if entity? = none ∨ entity? = some "" ∨ entity? = some SELECT_OPTION_DELETE then
    match placeholderSvg uuid with
    | .ok svg => .push svg
    | .error e => .err e
  else
    match entity? with
    | none => .skip
    | some entity =>
      if entity = SELECT_OPTION_UP then .push upSvg
      else if entity = SELECT_OPTION_DOWN then .push downSvg
      else
        match states entity with
        | none => .skip
        | some st =>
          match compositeParts st with
          | .ok p => .push (compositeRender p)
          | .error e => .err e

--
--  Session lifecycle (streamdeck.py StreamDeck.start / StreamDeck.stop).
--

/-- The lifecycle-relevant fields of a `StreamDeck` session object:
`_running` and whether `_stop_listener` holds a callback (it is `None`
until `start` installs the state-change listener). -/
structure SDSession where
  running : Bool
  hasStopListener : Bool
deriving DecidableEq, Repr

/-- A freshly constructed `StreamDeck`: `_running = False`,
`_stop_listener = None`. -/
def SDSession.init : SDSession := ⟨false, false⟩

/-- `StreamDeck.start`: schedules the websocket loop as a background
task (the loop itself later sets `_running = True`) and installs the
state-change listener into `_stop_listener`. -/
def SDSession.start (s : SDSession) : SDSession :=
  { s with hasStopListener := true }

/-- `StreamDeck.stop`: `self._running = False` and then
`self._stop_listener()` — when `_stop_listener` is still `None`, calling
it raises `TypeError` (after `_running` has already been cleared).
The installed callback is a host-provided unsubscribe closure whose own
effects live on the host side. -/
def SDSession.stop (s : SDSession) : SDSession × Option PyError :=
  let s2 := { s with running := false }
  if s.hasStopListener then (s2, none) else (s2, some .typeError)

--
--  Association-list dictionary lemmas (shared helpers).
--

theorem lookup_append_of_some {α : Type} (d e : List (String × α)) (k : String) (v : α)
    (h : d.lookup k = some v) : (d ++ e).lookup k = some v := by
  induction d with
  | nil => simp [List.lookup] at h
  | cons a t ih =>
    rw [List.cons_append]
    rw [List.lookup] at h ⊢
    cases hk : k == a.1 with
    | true => rw [hk] at h; simpa [hk] using h
    | false => rw [hk] at h; simpa [hk] using ih h

theorem lookup_eq_none_of_not_mem_keys {α : Type} (d : List (String × α)) (k : String)
    (h : k ∉ d.map Prod.fst) : d.lookup k = none := by
  induction d with
  | nil => rfl
  | cons a t ih =>
    simp only [List.map_cons, List.mem_cons, not_or] at h
    rw [List.lookup]
    have hk : (k == a.1) = false := beq_eq_false_iff_ne.mpr h.1
    rw [hk]
    exact ih h.2

theorem lookup_append_of_none {α : Type} (d e : List (String × α)) (k : String)
    (h : d.lookup k = none) : (d ++ e).lookup k = e.lookup k := by
  induction d with
  | nil => rfl
  | cons a t ih =>
    rw [List.lookup] at h
    cases hk : k == a.1 with
    | true => rw [hk] at h; simp at h
    | false =>
      rw [hk] at h
      rw [List.cons_append, List.lookup, hk]
      exact ih h

theorem mem_keys_of_lookup_some {α : Type} (d : List (String × α)) (k : String) (v : α)
    (h : d.lookup k = some v) : k ∈ d.map Prod.fst := by
  by_contra hk
  rw [lookup_eq_none_of_not_mem_keys d k hk] at h
  exact Option.noConfusion h

--
--  Reconciliation lemmas (C3 helpers).
--

theorem reconcileOnce_lookup_some (uuids : List String) :
    ∀ (store : List (String × String)) (k v : String),
      store.lookup k = some v → (reconcileOnce store uuids).lookup k = some v := by
  induction uuids with
  | nil => intro store k v h; simpa [reconcileOnce] using h
  | cons u us ih =>
    intro store k v h
    simp only [reconcileOnce, List.foldl_cons] at *
    by_cases hu : u ∈ store.map Prod.fst
    · simpa [hu] using ih _ _ _ h
    · simp only [hu, if_neg, ite_false]
      exact ih _ _ _ (lookup_append_of_some _ _ _ _ h)

theorem mem_keys_reconcileOnce_mono (uuids : List String) :
    ∀ (store : List (String × String)) (k : String),
      k ∈ store.map Prod.fst → k ∈ (reconcileOnce store uuids).map Prod.fst := by
  induction uuids with
  | nil => intro store k h; simpa [reconcileOnce] using h
  | cons u us ih =>
    intro store k h
    simp only [reconcileOnce, List.foldl_cons] at *
    by_cases hu : u ∈ store.map Prod.fst
    · simpa [hu] using ih _ _ h
    · simp only [hu, ite_false]
      exact ih _ _ (by simp [h])

theorem mem_keys_reconcileOnce (uuids : List String) :
    ∀ (store : List (String × String)) (u : String),
      u ∈ uuids → u ∈ (reconcileOnce store uuids).map Prod.fst := by
  induction uuids with
  | nil => intro store u h; simp at h
  | cons u0 us ih =>
    intro store u h
    simp only [reconcileOnce, List.foldl_cons]
    rcases List.mem_cons.mp h with heq | htail
    · subst heq
      by_cases hu : u ∈ store.map Prod.fst
      · simpa [hu] using mem_keys_reconcileOnce_mono us store u hu
      · simp only [hu, ite_false]
        exact mem_keys_reconcileOnce_mono us _ u (by simp)
    · by_cases hu : u0 ∈ store.map Prod.fst
      · simpa [hu] using ih _ _ htail
      · simp only [hu, ite_false]
        exact ih _ _ htail

theorem reconcileOnce_lookup_new (uuids : List String) :
    ∀ (store : List (String × String)) (u : String),
      u ∉ store.map Prod.fst → u ∈ uuids →
      (reconcileOnce store uuids).lookup u = some "" := by
  induction uuids with
  | nil => intro store u _ h; simp at h
  | cons u0 us ih =>
    intro store u hnot h
    simp only [reconcileOnce, List.foldl_cons]
    by_cases hmem : u0 ∈ store.map Prod.fst
    · simp only [hmem, ite_true]
      have hne : u ≠ u0 := fun he => hnot (he ▸ hmem)
      have htail : u ∈ us := by
        rcases List.mem_cons.mp h with heq | ht
        · exact absurd heq hne
        · exact ht
      exact ih store u hnot htail
    · simp only [hmem, ite_false]
      by_cases hequ : u = u0
      · subst hequ
        have hnew : (store ++ [(u, "")]).lookup u = some "" := by
          rw [lookup_append_of_none _ _ _ (lookup_eq_none_of_not_mem_keys _ _ hnot)]
          simp [List.lookup]
        exact reconcileOnce_lookup_some us _ _ _ hnew
      · have htail : u ∈ us := by
          rcases List.mem_cons.mp h with heq | ht
          · exact absurd heq hequ
          · exact ht
        have hnot2 : u ∉ (store ++ [(u0, "")]).map Prod.fst := by
          simp only [List.map_append, List.mem_append, not_or]
          exact ⟨hnot, by simp [hequ]⟩
        exact ih _ u hnot2 htail

theorem reconcileOnce_eq_self (uuids : List String) :
    ∀ (store : List (String × String)),
      (∀ u ∈ uuids, u ∈ store.map Prod.fst) → reconcileOnce store uuids = store := by
  induction uuids with
  | nil => intro store _; rfl
  | cons u0 us ih =>
    intro store h
    simp only [reconcileOnce, List.foldl_cons]
    have h0 : u0 ∈ store.map Prod.fst := h u0 (by simp)
    simp only [h0, ite_true]
    exact ih store fun u hu => h u (by simp [hu])

theorem reconcileOnce_idem (uuids : List String) (store : List (String × String)) :
    reconcileOnce (reconcileOnce store uuids) uuids = reconcileOnce store uuids :=
  reconcileOnce_eq_self uuids _ fun u hu => mem_keys_reconcileOnce uuids store u hu

/-- The net effect of the two guarded insertion loops of `add_entities`
on the button dict: one reconciliation pass when at least one
add-entities callback was provided, the identity otherwise. -/
theorem add_entities_buttons_eq (nb ns : Bool) (uuids : List String)
    (store : List (String × String)) :
    add_entities_buttons nb ns uuids store =
      if nb || ns then reconcileOnce store uuids else store := by
  cases nb <;> cases ns <;>
    simp [add_entities_buttons, reconcileOnce_idem]

theorem lookup_isSome_of_mem_keys {α : Type} (d : List (String × α)) (k : String)
    (h : k ∈ d.map Prod.fst) : (d.lookup k).isSome := by
  induction d with
  | nil => simp at h
  | cons a t ih =>
    simp only [List.map_cons, List.mem_cons] at h
    rw [List.lookup]
    rcases h with heq | ht
    · simp [heq]
    · cases hk : k == a.1 with
      | true => simp
      | false => simpa using ih ht

/-- Claim C3: `add_entities` reconciliation never deletes or overwrites
an existing binding, gives every device-reported button uuid its stored
binding (the empty string when it had none), is idempotent, and maps the
button set A, B over an empty store to empty bindings for A and B. -/
theorem C3_add_entities_reconcile (nb ns : Bool) (uuids : List String)
    (store : List (String × String)) :
    (∀ k v, store.lookup k = some v →
       (add_entities_buttons nb ns uuids store).lookup k = some v)
    ∧ ((nb = true ∨ ns = true) → ∀ u ∈ uuids,
       (add_entities_buttons nb ns uuids store).lookup u =
         some ((store.lookup u).getD ""))
    ∧ add_entities_buttons nb ns uuids (add_entities_buttons nb ns uuids store)
        = add_entities_buttons nb ns uuids store
    ∧ add_entities_buttons true true ["A", "B"] [] = [("A", ""), ("B", "")] := by
  refine ⟨?_, ?_, ?_, by decide⟩
  · intro k v h
    rw [add_entities_buttons_eq]
    cases hb : (nb || ns) with
    | false => simpa using h
    | true => simpa using reconcileOnce_lookup_some uuids store k v h
  · intro hflag u hu
    have hb : (nb || ns) = true := by rcases hflag with h | h <;> simp [h]
    rw [add_entities_buttons_eq, hb, if_pos rfl]
    cases hlk : store.lookup u with
    | some v => simpa [hlk] using reconcileOnce_lookup_some uuids store u v hlk
    | none =>
      have hnot : u ∉ store.map Prod.fst := by
        intro hm
        have := lookup_isSome_of_mem_keys store u hm
        rw [hlk] at this
        simp at this
      simpa [hlk] using reconcileOnce_lookup_new uuids store u hnot hu
  · simp only [add_entities_buttons_eq]
    cases hb : (nb || ns) with
    | false => simp
    | true => simp [reconcileOnce_idem]

/-- Witness for C3 at a concrete store and button set: an existing
binding survives and a new uuid gets the empty binding. -/
theorem C3_add_entities_reconcile_witness :
    (add_entities_buttons true false ["A", "B"] [("A", "light.x")]).lookup "A"
      = some "light.x"
    ∧ (add_entities_buttons true false ["A", "B"] [("A", "light.x")]).lookup "B"
      = some "" := by
  constructor
  · exact (C3_add_entities_reconcile true false ["A", "B"] [("A", "light.x")]).1
      "A" "light.x" (by decide)
  · have h := (C3_add_entities_reconcile true false ["A", "B"] [("A", "light.x")]).2.1
      (Or.inl rfl) "B" (by decide)
    simpa using h

--
--  State-independence of the decode errors (C1 helpers): the exception
--  raised (or not) by `SDInfo.__init__` depends only on the JSON
--  argument, not on the contents of the shared class state.
--

theorem devLoop_snd_indep (ds : List Json) :
    ∀ c1 c2, (SDInfo.devLoop c1 ds).2 = (SDInfo.devLoop c2 ds).2 := by
  induction ds with
  | nil => intro c1 c2; rfl
  | cons d rest ih =>
    intro c1 c2
    simp only [SDInfo.devLoop]
    cases SDDevice.decode d with
    | error e => rfl
    | ok dev => exact ih _ _

theorem btnLoop_snd_indep (fields : List (String × Json)) :
    ∀ c1 c2, (SDInfo.btnLoop c1 fields).2 = (SDInfo.btnLoop c2 fields).2 := by
  induction fields with
  | nil => intro c1 c2; rfl
  | cons kv rest ih =>
    intro c1 c2
    cases kv with
    | mk k v =>
      simp only [SDInfo.btnLoop]
      cases SDButton.decode v with
      | error e => rfl
      | ok b => exact ih _ _

theorem construct_snd_indep (j : Json) (c1 c2 : SDClassState) :
    (SDInfo.construct c1 j).2 = (SDInfo.construct c2 j).2 := by
  cases j with
  | obj fields =>
    simp only [SDInfo.construct]
    rcases happ : (Json.obj fields).getKey "application" with e | app
    · simp only [happ]
    · simp only [happ]
      rcases hdec : SDApplication.decode app with e | a
      · simp only [hdec]
      · simp only [hdec]
        rcases hdv : (Json.obj fields).getKey "devices" with e | dv
        · simp only [hdv]
        · simp only [hdv]
          rcases hel : dv.iterElems with e | elems
          · simp only [hel]
          · simp only [hel]
            have hd := devLoop_snd_indep elems c1 c2
            rcases h1 : SDInfo.devLoop c1 elems with ⟨s1, e1⟩
            rcases h2 : SDInfo.devLoop c2 elems with ⟨s2, e2⟩
            rw [h1, h2] at hd
            simp only at hd
            subst hd
            cases e1 with
            | some e => simp only [h1, h2]
            | none =>
              simp only [h1, h2]
              rcases hbt : (Json.obj fields).getKey "buttons" with e | bt
              · simp only [hbt]
              · simp only [hbt]
                cases bt with
                | obj f2 => exact btnLoop_snd_indep f2 _ _
                | arr xs => cases xs <;> rfl
                | str s => by_cases hs : s = "" <;> simp [hs]
                | null => rfl
                | bool b => rfl
                | num n => rfl
  | null => rfl
  | bool b => rfl
  | num n => rfl
  | str s => rfl
  | arr xs => rfl

theorem classifyArgsDecode_snd_indep (ev a : Json) (c1 c2 : SDClassState) :
    (classifyArgsDecode ev (SDInfo.construct c1 a)).2
      = (classifyArgsDecode ev (SDInfo.construct c2 a)).2 := by
  have hc := construct_snd_indep a c1 c2
  cases h1 : SDInfo.construct c1 a with
  | mk s1 e1 =>
    cases h2 : SDInfo.construct c2 a with
    | mk s2 e2 =>
      rw [h1, h2] at hc
      simp only at hc
      subst hc
      cases e1 with
      | none => rfl
      | some e => cases e <;> rfl

theorem on_message_snd_indep (f : Option Json) (c1 c2 : SDClassState) :
    (on_message c1 f).2 = (on_message c2 f).2 := by
  cases f with
  | none => rfl
  | some j =>
    simp only [on_message]
    cases j.getKey "event" with
    | error e => cases e <;> rfl
    | ok ev =>
      cases j.getKey "args" with
      | error e => cases e <;> rfl
      | ok a =>
        cases a with
        | obj fields =>
          cases fields with
          | nil => rfl
          | cons p rest => exact classifyArgsDecode_snd_indep ev (.obj (p :: rest)) c1 c2
        | str s => rfl
        | null => exact classifyArgsDecode_snd_indep ev .null c1 c2
        | bool b => exact classifyArgsDecode_snd_indep ev (.bool b) c1 c2
        | num n => exact classifyArgsDecode_snd_indep ev (.num n) c1 c2
        | arr xs => exact classifyArgsDecode_snd_indep ev (.arr xs) c1 c2

/-- Claim C1 (amended): frames that are malformed JSON or whose decode
raises the caught `KeyError` are each dropped and logged, and the
receive loop survives all of them and processes every frame; frames of
other wrong shapes raise an uncaught exception instead (see the
counterexample). -/
theorem C1_decode_failures_dropped (cls : SDClassState) (frames : List (Option Json))
    (h : ∀ f ∈ frames, isDroppedOutcome (on_message SDClassState.empty f).2 = true) :
    (websocket_loop_frames cls frames).2 = true
    ∧ (websocket_loop_frames cls frames).1.length = frames.length
    ∧ ∀ o ∈ (websocket_loop_frames cls frames).1, isDroppedOutcome o = true := by
  induction frames generalizing cls with
  | nil => exact ⟨rfl, rfl, by intro o ho; simp [websocket_loop_frames] at ho⟩
  | cons f fs ih =>
    have hcur : isDroppedOutcome (on_message cls f).2 = true := by
      rw [on_message_snd_indep f cls SDClassState.empty]
      exact h f (by simp)
    rcases hm : on_message cls f with ⟨c2, o⟩
    rw [hm] at hcur
    have ihh := ih c2 fun g hg => h g (by simp [hg])
    cases o with
    | raised e => simp [isDroppedOutcome] at hcur
    | dispatched ev args => simp [isDroppedOutcome] at hcur
    | droppedNotJson =>
      refine ⟨?_, ?_, ?_⟩
      · simpa [websocket_loop_frames, hm] using ihh.1
      · simpa [websocket_loop_frames, hm] using ihh.2.1
      · intro o ho
        simp only [websocket_loop_frames, hm, List.mem_cons] at ho
        rcases ho with rfl | ho
        · exact hcur
        · exact ihh.2.2 o ho
    | droppedBadShape =>
      refine ⟨?_, ?_, ?_⟩
      · simpa [websocket_loop_frames, hm] using ihh.1
      · simpa [websocket_loop_frames, hm] using ihh.2.1
      · intro o ho
        simp only [websocket_loop_frames, hm, List.mem_cons] at ho
        rcases ho with rfl | ho
        · exact hcur
        · exact ihh.2.2 o ho

/-- Witness for C1 at two concrete decode-failure frames: a non-JSON
frame and a JSON object missing the `event` key; the loop survives both
and drops both. -/
theorem C1_decode_failures_dropped_witness :
    (websocket_loop_frames SDClassState.empty [none, some (Json.obj [])]).2 = true
    ∧ (websocket_loop_frames SDClassState.empty [none, some (Json.obj [])]).1.length = 2 := by
  have h := C1_decode_failures_dropped SDClassState.empty [none, some (Json.obj [])]
    (by decide)
  exact ⟨h.1, h.2.1⟩

/-- Counterexample for C1 as stated: the frame `"5"` is valid JSON whose
payload has the wrong shape (an int, so `obj["event"]` raises an
uncaught `TypeError`); `on_message` raises instead of returning, and the
receive loop terminates without reaching the following frame. -/
theorem C1_counterexample :
    (on_message SDClassState.empty (some (Json.num 5))).2 = .raised .typeError
    ∧ (websocket_loop_frames SDClassState.empty [some (Json.num 5), none]).2 = false
    ∧ (websocket_loop_frames SDClassState.empty [some (Json.num 5), none]).1.length = 1 :=
  ⟨rfl, rfl, rfl⟩

/-- Claim C2 (amended): `get_info` returns the failure indicator when
the request raises, the status is not 200, the body is not JSON, or
`SDInfo` decoding raises `KeyError`; a successful decode returns the
info; but a wrong-shaped JSON body whose decode raises any other
exception lets that exception escape.  The underlying GET passes a
5-second timeout. -/
theorem C2_get_info_soft_failure (cls : SDClassState) :
    (get_info cls .exn).2 = .failure
    ∧ (∀ status body, status ≠ 200 → (get_info cls (.resp status body)).2 = .failure)
    ∧ (get_info cls (.resp 200 none)).2 = .failure
    ∧ (∀ j c2, SDInfo.construct cls j = (c2, some .keyError) →
        (get_info cls (.resp 200 (some j))).2 = .failure)
    ∧ (∀ j c2 e, SDInfo.construct cls j = (c2, some e) → e ≠ .keyError →
        (get_info cls (.resp 200 (some j))).2 = .raised e)
    ∧ (∀ j c2, SDInfo.construct cls j = (c2, none) →
        (get_info cls (.resp 200 (some j))).2 = .ok c2)
    ∧ requestTimeoutSeconds = 5 := by
  refine ⟨rfl, ?_, rfl, ?_, ?_, ?_, rfl⟩
  · intro status body h
    simp [get_info, get_request, h]
  · intro j c2 h
    simp [get_info, get_request, h]
  · intro j c2 e h he
    cases e with
    | keyError => exact absurd rfl he
    | typeError => simp [get_info, get_request, h]
    | indexError => simp [get_info, get_request, h]
  · intro j c2 h
    simp [get_info, get_request, h]

/-- Witness for C2 at concrete inputs: a raised request exception and a
404 response both collapse to the failure indicator, and the timeout
constant is 5. -/
theorem C2_get_info_soft_failure_witness :
    (get_info SDClassState.empty .exn).2 = .failure
    ∧ (get_info SDClassState.empty (.resp 404 none)).2 = .failure
    ∧ requestTimeoutSeconds = 5 :=
  ⟨(C2_get_info_soft_failure SDClassState.empty).1,
   (C2_get_info_soft_failure SDClassState.empty).2.1 404 none (by decide),
   (C2_get_info_soft_failure SDClassState.empty).2.2.2.2.2.2⟩

/-- Counterexample for C2 as stated: a 200 response whose body is the
JSON number 5 is valid JSON, but `SDInfo(5)` raises `TypeError`, which
`get_info` does not catch (only `KeyError` is), so an exception
escapes. -/
theorem C2_counterexample :
    (get_info SDClassState.empty (.resp 200 (some (Json.num 5)))).2
      = .raised .typeError := rfl

--
--  C8: the shared mutable class state of SDInfo.
--

/-- A concrete well-formed device entry of an info payload. -/
def demoDeviceJson : Json :=
  .obj [("id", .str "dev1"), ("name", .str "Deck"), ("type", .num 0),
        ("size", .obj [("columns", .num 3), ("rows", .num 2)])]

/-- A concrete well-formed `application` entry of an info payload. -/
def demoAppJson : Json :=
  .obj [("font", .str "f"), ("language", .str "en"), ("platform", .str "mac"),
        ("platformVersion", .str "13"), ("version", .str "6.0")]

/-- A concrete well-formed info payload with one device and no buttons. -/
def demoInfoJson : Json :=
  .obj [("application", demoAppJson), ("devices", .arr [demoDeviceJson]),
        ("buttons", .obj [])]

/-- Claim C8: decoding the same one-device info payload twice succeeds
both times, but the shared class-level `devices` list (which every
`SDInfo` instance aliases) grows from one entry to two, so the second
decode mutates the devices seen through the first decoded value — the
decoder is not side-effect free. -/
theorem C8_sdinfo_shared_state_mutation :
    (SDInfo.construct SDClassState.empty demoInfoJson).2 = none
    ∧ ((SDInfo.construct SDClassState.empty demoInfoJson).1).devices.length = 1
    ∧ (SDInfo.construct (SDInfo.construct SDClassState.empty demoInfoJson).1
        demoInfoJson).2 = none
    ∧ ((SDInfo.construct (SDInfo.construct SDClassState.empty demoInfoJson).1
        demoInfoJson).1).devices.length = 2 :=
  ⟨rfl, rfl, rfl, rfl⟩

--
--  C9: stop lifecycle.
--

/-- Claim C9 (amended): `stop` always clears the running flag; it
returns without raising exactly when `start` has installed the stop
listener, and in that case a second consecutive `stop` changes nothing;
calling `stop` on a session that was never started raises `TypeError`
(see the counterexample). -/
theorem C9_stop_idempotent_after_start (s : SDSession) :
    (SDSession.stop s).1.running = false
    ∧ ((SDSession.stop s).2 = none ↔ s.hasStopListener = true)
    ∧ (SDSession.stop (SDSession.start s)).2 = none
    ∧ (s.hasStopListener = true →
        SDSession.stop (SDSession.stop s).1 = SDSession.stop s) := by
  rcases s with ⟨r, l⟩
  cases l <;> simp [SDSession.stop, SDSession.start]

/-- Witness for C9 on a started session: stop clears the flag and a
second stop is a no-op. -/
theorem C9_stop_idempotent_after_start_witness :
    (SDSession.stop ⟨true, true⟩).1.running = false
    ∧ SDSession.stop (SDSession.stop ⟨true, true⟩).1 = SDSession.stop ⟨true, true⟩ :=
  ⟨(C9_stop_idempotent_after_start ⟨true, true⟩).1,
   (C9_stop_idempotent_after_start ⟨true, true⟩).2.2.2 rfl⟩

/-- Counterexample for C9 as stated: on a freshly constructed session
(never started), `stop` evaluates `self._stop_listener()` with the
listener still `None`, raising `TypeError`. -/
theorem C9_counterexample :
    (SDSession.stop SDSession.init).2 = some PyError.typeError := rfl

--
--  C4 / C6: event router dispatch.
--

/-- Claim C4 (amended): a short-press on a button bound to the up (resp.
down) sentinel, with the Last-Pressed Pointer holding a light whose
brightness attribute is the integer b, issues `light.turn_on` with
brightness b + 15 (resp. b - 15) targeting that light — with no
clamping of any kind, so the value can exceed 255 or drop below 0. -/
theorem C4_up_down_brightness_step (entryData : List (String × Json))
    (states : String → Option HAState) (p uuid : String) (st : HAState) (b : Int)
    (hst : states p = some st) (hdom : st.domain = "light")
    (hb : st.attributes.lookup "brightness" = some (.aInt b)) :
    (get_button_entity entryData uuid = some SELECT_OPTION_UP →
      on_ws_message entryData (some p) states EVENT_SHORT_PRESS (.text uuid)
        = ⟨some ⟨"light", "turn_on", st.entity_id, some (b + 15)⟩, some p⟩)
    ∧ (get_button_entity entryData uuid = some SELECT_OPTION_DOWN →
      on_ws_message entryData (some p) states EVENT_SHORT_PRESS (.text uuid)
        = ⟨some ⟨"light", "turn_on", st.entity_id, some (b - 15)⟩, some p⟩) := by
  constructor
  · intro hup
    simp [on_ws_message, on_button_press, option_up, hup, hst, hdom, hb,
      SELECT_OPTION_UP, SELECT_OPTION_DOWN, EVENT_SHORT_PRESS,
      TOGGLEABLE_PLATFORMS, UP_DOWN_PLATFORMS, UP_DOWN_STEPS]
  · intro hdn
    simp [on_ws_message, on_button_press, option_down, hdn, hst, hdom, hb,
      SELECT_OPTION_UP, SELECT_OPTION_DOWN, EVENT_SHORT_PRESS,
      TOGGLEABLE_PLATFORMS, UP_DOWN_PLATFORMS, UP_DOWN_STEPS]

/-- A config entry whose button `u1` is bound to the up sentinel. -/
def edUp : List (String × Json) :=
  [("buttons", Json.obj [("u1", Json.obj [("entity_id", Json.str ">>UP<<")])])]

/-- A kitchen light at brightness 100. -/
def kitchen100 : HAState :=
  ⟨"light.kitchen", "on", "Kitchen", [("brightness", .aInt 100)]⟩

/-- A state store holding only the kitchen light at brightness 100. -/
def statesK100 : String → Option HAState :=
  fun e => if e = "light.kitchen" then some kitchen100 else none

/-- Witness for C4 at the spec scenario: pointer on a light at
brightness 100, short-press of the up button issues turn_on with
brightness 115. -/
theorem C4_up_down_brightness_step_witness :
    on_ws_message edUp (some "light.kitchen") statesK100 EVENT_SHORT_PRESS (.text "u1")
      = ⟨some ⟨"light", "turn_on", "light.kitchen", some 115⟩, some "light.kitchen"⟩ := by
  have h := (C4_up_down_brightness_step edUp statesK100 "light.kitchen" "u1"
    kitchen100 100 (by decide) (by decide) (by decide)).1 (by decide)
  simpa [kitchen100] using h

/-- A kitchen light at brightness 250. -/
def kitchen250 : HAState :=
  ⟨"light.kitchen", "on", "Kitchen", [("brightness", .aInt 250)]⟩

/-- A state store holding only the kitchen light at brightness 250. -/
def statesK250 : String → Option HAState :=
  fun e => if e = "light.kitchen" then some kitchen250 else none

/-- Counterexample for C4 as stated: at brightness 250 the up button
issues turn_on with brightness 265, above 255 — the source performs no
clamping. -/
theorem C4_counterexample :
    on_ws_message edUp (some "light.kitchen") statesK250 EVENT_SHORT_PRESS (.text "u1")
      = ⟨some ⟨"light", "turn_on", "light.kitchen", some 265⟩, some "light.kitchen"⟩
    ∧ ¬ ((265 : Int) ≤ 255) := by
  constructor
  · decide
  · decide

/-- Claim C6: a long-press on a button with a bound entity issues no
service call and sets the Last-Pressed Pointer to that entity; a
subsequent short-press on a button bound to the down sentinel while the
pointer holds an entity whose domain has no leveled adjustment (not in
`UP_DOWN_PLATFORMS`) issues no service call and leaves the pointer on
that entity. -/
theorem C6_long_press_pointer (entryData : List (String × Json))
    (states : String → Option HAState) (uuid : String) :
    (∀ (ptr : Option String) (e : String),
      get_button_entity entryData uuid = some e →
      on_ws_message entryData ptr states EVENT_LONG_PRESS (.text uuid)
        = ⟨none, some e⟩)
    ∧ (∀ (p : String) (st : HAState),
      get_button_entity entryData uuid = some SELECT_OPTION_DOWN →
      states p = some st → st.domain ∉ UP_DOWN_PLATFORMS →
      on_ws_message entryData (some p) states EVENT_SHORT_PRESS (.text uuid)
        = ⟨none, some p⟩) := by
  constructor
  · intro ptr e h
    simp [on_ws_message, EVENT_LONG_PRESS, EVENT_SHORT_PRESS, h]
  · intro p st hdn hst hdom
    by_cases ht : st.domain ∈ TOGGLEABLE_PLATFORMS
    · simp [on_ws_message, on_button_press, option_down, hdn, hst, hdom, ht,
        SELECT_OPTION_UP, SELECT_OPTION_DOWN, EVENT_SHORT_PRESS]
    · simp [on_ws_message, on_button_press, hdn, hst, ht,
        SELECT_OPTION_UP, SELECT_OPTION_DOWN, EVENT_SHORT_PRESS]

/-- A config entry with `u1` bound to `switch.fan` and `u2` bound to the
down sentinel. -/
def edFan : List (String × Json) :=
  [("buttons", Json.obj
    [("u1", Json.obj [("entity_id", Json.str "switch.fan")]),
     ("u2", Json.obj [("entity_id", Json.str ">>DOWN<<")])])]

/-- The fan switch state. -/
def fanState : HAState := ⟨"switch.fan", "on", "Fan", []⟩

/-- A state store holding only the fan switch. -/
def statesFan : String → Option HAState :=
  fun e => if e = "switch.fan" then some fanState else none

/-- Witness for C6 at the spec scenario: long-press of the fan button
sets the pointer without a call, then a short-press of the down button
is a no-op (switch is not a leveled domain) and keeps the pointer. -/
theorem C6_long_press_pointer_witness :
    on_ws_message edFan none statesFan EVENT_LONG_PRESS (.text "u1")
      = ⟨none, some "switch.fan"⟩
    ∧ on_ws_message edFan (some "switch.fan") statesFan EVENT_SHORT_PRESS (.text "u2")
      = ⟨none, some "switch.fan"⟩ :=
  ⟨(C6_long_press_pointer edFan statesFan "u1").1 none "switch.fan" (by decide),
   (C6_long_press_pointer edFan statesFan "u2").2 "switch.fan" fanState
     (by decide) (by decide) (by decide)⟩

--
--  C5 / C7 / C10: icon rendering.
--

/-- Python `split` always yields one more segment than there are
separator occurrences. -/
theorem pySplit_length (sep : Char) (l : List Char) :
    (pySplit sep l).length = l.count sep + 1 := by
  induction l with
  | nil => rfl
  | cons c cs ih =>
    simp only [pySplit]
    cases hp : pySplit sep cs with
    | nil => rw [hp] at ih; simp at ih
    | cons h t =>
      rw [hp] at ih
      by_cases hc : c = sep
      · subst hc
        simp only [if_pos rfl]
        simp [List.count_cons] at *
        omega
      · have hb : (c == sep) = false := beq_eq_false_iff_ne.mpr hc
        simp only [if_neg hc]
        simp [List.count_cons, hb] at *
        omega

/-- Claim C10: when the binding of a button is absent, empty or the
clear sentinel, the placeholder branch of `update_button_icon` raises
`IndexError` for every uuid containing fewer than two hyphen separators
(it indexes the first three segments of `uuid.split("-")`), and pushes a
placeholder image for every uuid with at least two hyphens. -/
theorem C10_placeholder_needs_two_hyphens (entryData : List (String × Json))
    (states : String → Option HAState) (uuid : String)
    (hb : get_button_entity entryData uuid = none
        ∨ get_button_entity entryData uuid = some ""
        ∨ get_button_entity entryData uuid = some SELECT_OPTION_DELETE) :
    (uuid.toList.count (Char.ofNat 45) < 2 →
      update_button_icon entryData states uuid = .err .indexError)
    ∧ (2 ≤ uuid.toList.count (Char.ofNat 45) →
      ∃ svg, update_button_icon entryData states uuid = .push svg) := by
  have hlen := pySplit_length (Char.ofNat 45) uuid.toList
  constructor
  · intro hc
    have hle : (pySplit (Char.ofNat 45) uuid.toList).length ≤ 2 := by omega
    simp only [update_button_icon, hb, placeholderSvg]
    rw [dif_pos hle]
    simp
  · intro hc
    have hgt : ¬ (pySplit (Char.ofNat 45) uuid.toList).length ≤ 2 := by omega
    simp only [update_button_icon, hb, placeholderSvg]
    rw [dif_neg hgt]
    simp

/-- A config entry binding button `abc` to the empty string. -/
def edAbc : List (String × Json) :=
  [("buttons", Json.obj [("abc", Json.obj [("entity_id", Json.str "")])])]

/-- Witness for C10: the hyphen-free uuid `abc` (bound to the empty
string) raises `IndexError`; the unknown uuid `a-b-c` (no binding, two
hyphens) gets a placeholder pushed. -/
theorem C10_placeholder_needs_two_hyphens_witness :
    update_button_icon edAbc (fun _ => none) "abc" = .err .indexError
    ∧ ∃ svg, update_button_icon edAbc (fun _ => none) "a-b-c" = .push svg :=
  ⟨(C10_placeholder_needs_two_hyphens edAbc (fun _ => none) "abc"
      (Or.inr (Or.inl (by decide)))).1 (by decide),
   (C10_placeholder_needs_two_hyphens edAbc (fun _ => none) "a-b-c"
      (Or.inl (by decide))).2 (by decide)⟩

/-- Claim C5 (amended): for a binding that is absent, empty or the clear
sentinel, `update_button_icon` never consults the entity state store —
its result is the placeholder computation, a function of the uuid alone
(pushing the placeholder when the uuid has at least two hyphens, raising
`IndexError` otherwise); for the up (resp. down) sentinel it pushes the
fixed plus (resp. minus) glyph, again without any state lookup. -/
theorem C5_sentinel_no_state_lookup (entryData : List (String × Json))
    (uuid : String) (states : String → Option HAState) :
    ((get_button_entity entryData uuid = none
        ∨ get_button_entity entryData uuid = some ""
        ∨ get_button_entity entryData uuid = some SELECT_OPTION_DELETE) →
      update_button_icon entryData states uuid =
        (match placeholderSvg uuid with
         | .ok svg => .push svg
         | .error e => .err e))
    ∧ (get_button_entity entryData uuid = some SELECT_OPTION_UP →
        update_button_icon entryData states uuid = .push upSvg)
    ∧ (get_button_entity entryData uuid = some SELECT_OPTION_DOWN →
        update_button_icon entryData states uuid = .push downSvg) := by
  refine ⟨?_, ?_, ?_⟩
  · intro hb
    simp only [update_button_icon, hb]
    simp
  · intro hup
    rw [update_button_icon, if_neg]
    · rw [hup]
      simp
    · rw [hup]
      decide
  · intro hdn
    rw [update_button_icon, if_neg]
    · rw [hdn]
      simp [SELECT_OPTION_UP, SELECT_OPTION_DOWN]
    · rw [hdn]
      decide

/-- Witness for C5: with button `abc` bound to the empty string, the
result equals the placeholder computation regardless of the state store,
and a button bound to the up sentinel pushes the fixed plus glyph. -/
theorem C5_sentinel_no_state_lookup_witness :
    update_button_icon edAbc (fun _ => none) "abc" =
      (match placeholderSvg "abc" with
       | .ok svg => .push svg
       | .error e => .err e)
    ∧ update_button_icon edUp (fun _ => none) "u1" = .push upSvg :=
  ⟨(C5_sentinel_no_state_lookup edAbc "abc" (fun _ => none)).1
     (Or.inr (Or.inl (by decide))),
   (C5_sentinel_no_state_lookup edUp "u1" (fun _ => none)).2.1 (by decide)⟩

/-- Counterexample for C5 as stated: button `abc` is bound to the empty
string, yet `update_button_icon` pushes nothing — the placeholder
f-string indexes `uuid.split("-")[1]` and raises `IndexError`, so no
placeholder image is produced for this unbound button. -/
theorem C5_counterexample :
    update_button_icon edAbc (fun _ => none) "abc" = .err .indexError
    ∧ ∀ svg, update_button_icon edAbc (fun _ => none) "abc" ≠ .push svg := by
  refine ⟨by decide, ?_⟩
  intro svg h
  rw [show update_button_icon edAbc (fun _ => none) "abc" = .err .indexError
    from by decide] at h
  exact IconAction.noConfusion h

/-- Claim C7 (amended): for a binding that resolves to an entity with an
available state (and a well-typed icon attribute), `update_button_icon`
pushes the composite SVG whose background rect is the fixed black
`#000`, whose icon glyph is colorized green (`#0e0`) when the state is
"on", red (`#e00`) when "off", black otherwise, and whose overlay texts
are the state value plus unit of measurement and the friendly name. -/
theorem C7_composite_render (entryData : List (String × Json))
    (states : String → Option HAState) (uuid entity : String) (st : HAState)
    (p : CompositeParts)
    (hent : get_button_entity entryData uuid = some entity)
    (h1 : entity ≠ "") (h2 : entity ≠ SELECT_OPTION_DELETE)
    (h3 : entity ≠ SELECT_OPTION_UP) (h4 : entity ≠ SELECT_OPTION_DOWN)
    (hst : states entity = some st)
    (hp : compositeParts st = .ok p) :
    update_button_icon entryData states uuid = .push (compositeRender p)
    ∧ p = ⟨iconColorOf st.state, st.state, unitStr st.attributes, st.name,
           MDI_get_icon (stripMdiTag (iconIdOf st.attributes)) (iconColorOf st.state)⟩
    ∧ iconColorOf "on" = "#0e0" ∧ iconColorOf "off" = "#e00"
    ∧ (st.state ≠ "on" → st.state ≠ "off" → iconColorOf st.state = "#000") := by
  have hpv : p = ⟨iconColorOf st.state, st.state, unitStr st.attributes, st.name,
      MDI_get_icon (stripMdiTag (iconIdOf st.attributes)) (iconColorOf st.state)⟩ := by
    rcases hicon : st.attributes.lookup "icon" with _ | a
    · simp [compositeParts, hicon] at hp
      exact hp.symm
    · cases a with
      | aStr s =>
        simp [compositeParts, hicon] at hp
        exact hp.symm
      | aInt n => simp [compositeParts, hicon] at hp
  refine ⟨?_, hpv, rfl, rfl, ?_⟩
  · rw [update_button_icon, if_neg]
    · rw [hent]
      simp [h3, h4, hst, hp]
    · rw [hent]
      simp [h1, h2]
  · intro hon hoff
    simp [iconColorOf, hon, hoff]

/-- The kitchen light state of the spec scenario. -/
def kitchenState : HAState :=
  ⟨"light.kitchen", "on", "Kitchen", [("icon", .aStr "mdi:lightbulb")]⟩

/-- A config entry binding button `btn-a-1` to `light.kitchen`. -/
def edKitchen : List (String × Json) :=
  [("buttons", Json.obj
    [("btn-a-1", Json.obj [("entity_id", Json.str "light.kitchen")])])]

/-- A state store holding only the kitchen light. -/
def statesKitchen : String → Option HAState :=
  fun e => if e = "light.kitchen" then some kitchenState else none

/-- The composite slots rendered for the kitchen scenario. -/
def kitchenParts : CompositeParts :=
  ⟨"#0e0", "on", "", "Kitchen", MDI_get_icon "lightbulb" "#0e0"⟩

/-- Witness for C7 at the spec scenario: the kitchen button pushes the
composite SVG with the green glyph color, the state text `on` and the
name `Kitchen`. -/
theorem C7_composite_render_witness :
    update_button_icon edKitchen statesKitchen "btn-a-1"
      = .push (compositeRender kitchenParts) :=
  (C7_composite_render edKitchen statesKitchen "btn-a-1" "light.kitchen"
    kitchenState kitchenParts (by decide) (by decide) (by decide) (by decide)
    (by decide) (by decide) rfl).1

set_option maxRecDepth 40000 in
/-- Counterexample for C7 as stated: in the kitchen scenario the pushed
SVG does contain the literal texts `on` and `Kitchen`, but its
background rect is the fixed black `fill="#000"` — there is no
green-filled background rect anywhere in the output; the green `#0e0`
colors only the icon glyph, so the background does not encode on/off. -/
theorem C7_counterexample :
    update_button_icon edKitchen statesKitchen "btn-a-1"
      = .push (compositeRender kitchenParts)
    ∧ ("<rect width=\"72\" height=\"72\" fill=\"#000\" />".toList
        <:+: (compositeRender kitchenParts).toList)
    ∧ ¬ ("<rect width=\"72\" height=\"72\" fill=\"#0e0\"".toList
        <:+: (compositeRender kitchenParts).toList)
    ∧ ("on".toList <:+: (compositeRender kitchenParts).toList)
    ∧ ("Kitchen".toList <:+: (compositeRender kitchenParts).toList) :=
  ⟨by decide, by decide, by decide, by decide, by decide⟩
